import Mathlib

/-!
Verification development for `run_rotate.py`, the interactive viewpoint /
synthesis driver of the semiparametric repository.

The script keeps a global session-state dictionary, dispatches keyboard
events in `Callbacks.__call__`, and after each successful event performs a
full re-render: camera computation, keypoint projection, plane warping,
neural synthesis, silhouette masking and horizontal compositing.  External
collaborators (renderer, dataset, warp engine, network) are modelled as
opaque pure functions bundled in an `Externals` record, following the
contracts of the specification.  Machine floats are modelled as exact
rationals; Python `%`, `int()` and numpy `clip` are translated with their
exact semantics (in particular `np.clip(x, lo, hi)` is
`np.minimum(hi, np.maximum(x, lo))`, which returns `hi` when `hi < lo`).
-/

namespace RunRotate

/-- `np.maximum(a, b)`. -/
def npmax (a b : ℚ) : ℚ := if a ≤ b then b else a

/-- `np.minimum(a, b)`. -/
def npmin (a b : ℚ) : ℚ := if a ≤ b then a else b

/-- `np.clip(x, lo, hi)` is `np.minimum(hi, np.maximum(x, lo))`.
Note that when `hi < lo` the result is `hi`, not `lo`. -/
def npclip (x lo hi : ℚ) : ℚ := npmin hi (npmax lo x)

/-- Python `a % b` on floats: `a - b * floor(a / b)` (sign of the divisor). -/
def pymod (a b : ℚ) : ℚ := a - b * (⌊a / b⌋ : ℤ)

/-- Python `int()` on a float: truncation toward zero. -/
def pyint (q : ℚ) : ℤ := if 0 ≤ q then ⌊q⌋ else -⌊-q⌋

/-- Python `f-string` formatting `{n:03d}`: pad with zeros to total width 3,
the sign included in the width. -/
def format3 (n : ℤ) : String :=
  let digits := toString n.natAbs
  if n < 0 then
    "-" ++ String.mk (List.replicate (2 - digits.length) '0') ++ digits
  else
    String.mk (List.replicate (3 - digits.length) '0') ++ digits

/-! ### Geometry (frame size 128×128, set in `__main__`) -/

abbrev Point3 := ℚ × ℚ × ℚ
abbrev Point2 := ℚ × ℚ
abbrev Row4 := ℚ × ℚ × ℚ × ℚ
/-- 3×4 extrinsic matrix, row major. -/
abbrev Mat34 := Row4 × Row4 × Row4
/-- 3×3 intrinsic matrix, row major. -/
abbrev Mat3 := Point3 × Point3 × Point3

def imgW : ℚ := 128
def imgH : ℚ := 128

def applyRow4 (r : Row4) (p : Point3) : ℚ :=
  r.1 * p.1 + r.2.1 * p.2.1 + r.2.2.1 * p.2.2 + r.2.2.2

/-- Extrinsic transform of a 3D point (homogeneous coordinate 1). -/
def applyExt (m : Mat34) (p : Point3) : Point3 :=
  (applyRow4 m.1 p, applyRow4 m.2.1 p, applyRow4 m.2.2 p)

def applyRow3 (r : Point3) (p : Point3) : ℚ :=
  r.1 * p.1 + r.2.1 * p.2.1 + r.2.2 * p.2.2

def applyMat3 (k : Mat3) (p : Point3) : Point3 :=
  (applyRow3 k.1 p, applyRow3 k.2.1 p, applyRow3 k.2.2 p)

/-- Modelled from the spec: `utils.geometry.intrinsic_matrix` is not under
`src/`; §4.1 describes principal-point-centered intrinsics built from the
focal length and the frame size. -/
def intrinsic_matrix (focal cx cy : ℚ) : Mat3 :=
  ((focal, 0, cx), (0, focal, cy), (0, 0, 1))

/-- Modelled from the spec: `utils.geometry.project_points` is not under
`src/`; §4.2 describes the pinhole projection, the extrinsic transform
followed by the intrinsic projection (perspective division by depth),
applied per point. -/
def project_points (p : Point3) (intrinsic : Mat3) (extrinsic : Mat34) : Point2 :=
  let cam := applyExt extrinsic p
  let h := applyMat3 intrinsic cam
  (h.1 / h.2.2, h.2.1 / h.2.2)

/-- One keypoint through the projector as `run_rotate.py` lines 176–181:
project, divide by `(img_w, img_h)`, then `np.clip` to `[-1, 1]`. -/
def projectNormClip (p : Point3) (intrinsic : Mat3) (extrinsic : Mat34) : Point2 :=
  let q := project_points p intrinsic extrinsic
  (npclip (q.1 / imgW) (-1) 1, npclip (q.2 / imgH) (-1) 1)

/-- The keypoint projection loop of `run_rotate.py` lines 174–181: every
named 3D keypoint is projected independently. -/
def kpProject (kps : List (String × Point3)) (intrinsic : Mat3) (extrinsic : Mat34) :
    List (String × Point2) :=
  kps.map fun nk => (nk.1, projectNormClip nk.2 intrinsic extrinsic)

/-- The Keypoint Projector as worded by the spec (§4.2): division by the
half frame size instead of the full frame size.  Kept only to compare with
`kpProject`, the translation of the source. -/
def kpProjectSpecHalf (kps : List (String × Point3)) (intrinsic : Mat3) (extrinsic : Mat34) :
    List (String × Point2) :=
  kps.map fun nk =>
    let q := project_points nk.2 intrinsic extrinsic
    (nk.1, (npclip (q.1 / (imgW / 2)) (-1) 1, npclip (q.2 / (imgH / 2)) (-1) 1))

/-! ### Images and the output compositor -/

/-- An 8-bit RGB pixel. -/
abbrev Pix := ℕ × ℕ × ℕ
/-- A raster image, rows of pixels. -/
abbrev Img := List (List Pix)

/-- `net_image[object_mask] = 255` (line 220): pixels where the rendered
normal image is exactly the background `(0, 0, 0)` are forced to full
white; all other pixels keep the synthesized value. -/
def maskNet (netImage srcNormal : Img) : Img :=
  List.zipWith
    (fun nrow mrow =>
      List.zipWith
        (fun np mp =>
          if mp = ((0 : ℕ), (0 : ℕ), (0 : ℕ)) then ((255 : ℕ), (255 : ℕ), (255 : ℕ)) else np)
        nrow mrow)
    netImage srcNormal

/-- `np.concatenate(·, axis=1)` of two images: row-wise append. -/
def hconcat (a b : Img) : Img := List.zipWith (· ++ ·) a b

/-- The display frame of lines 222–226: `[sketch | central | masked
synthesis | original source]`, concatenated left to right. -/
def compositeFrame (sketch central masked original : Img) : Img :=
  hconcat (hconcat (hconcat sketch central) masked) original

/-- Pixel lookup, row `i` column `j`. -/
def getPix (img : Img) (i j : ℕ) : Option Pix := img[i]?.bind (·[j]?)

/-! ### Data model -/

/-- One record of the texture dataset (§3 TextureExample): the fields the
render loop reads from `state['texture_src']`.  The tensor-valued fields
(`planes`, the per-plane keypoints/visibilities, the central crop and the
source image) are opaque handles: the claims never look inside them, the
external conversion functions do. -/
structure TextureExample where
  planes : ℕ
  src_kpoints_planes : ℕ
  src_vs : ℕ
  src_central : ℕ
  src_image : ℕ
deriving DecidableEq

/-- Modelled from the spec (§6): the external collaborators consumed by the
tick — dataset, CAD/keypoint store, renderer, visibility resolver, warp
engine, tensor conversions and the synthesis network — as opaque pure
functions. -/
structure Externals where
  dataset : List TextureExample
  kpStore : ℕ → List (String × Point3)
  meshColors : ℕ → ℕ
  vpointToExtrinsics : ℚ → ℚ → ℚ → Mat34
  captureNormal : ℕ → ℕ → ℚ → Mat34 → Img
  getPlanes : List (String × Point2) → (ℚ × ℚ) → ℕ → String → ℕ × ℕ
  warpUnwarp : ℕ → ℕ → ℕ → ℕ → ℕ → String → ℕ
  toSketchTensor : Img → ℕ
  net : ℕ → ℕ → ℕ → Img
  tensorToImage : ℕ → Img

/-- The global `state` dictionary initialized in `run` (lines 239–249) plus
the keys added later (`texture_src`, `kpoints_3d`, `normal_vertex_colors`,
`dump_image`).  `dumped` models the dump directory written by `cv2.imwrite`. -/
structure State where
  pascal_class : String
  angle_y : ℚ
  angle_z : ℚ
  cad_idx : ℕ
  dataset_index : ℕ
  dump_id : ℕ
  focal : ℚ
  radius : ℚ
  geometriesMeshColors : ℕ
  normal_vertex_colors : ℕ
  kpoints_3d : List (String × Point3)
  texture_src : Option TextureExample
  dump_image : Img
  dumped : List (String × Img)
deriving DecidableEq

/-- Errors a tick can raise: `NotImplementedError` for a key the dispatch
chain does not know (line 135), `IndexError` for a dataset access past the
end (line 104), `KeyError` for reading `state['texture_src']` before any
`next_example` has set it. -/
inductive Err where
  | notImplemented
  | indexError
  | keyError
deriving DecidableEq

/-- Line 144: `pascal_az = (state['angle_z'] + 90) % 360`. -/
def frameAz (s : State) : ℚ := pymod (s.angle_z + 90) 360

/-- Lines 141 and 145: `angle_y = np.clip(state['angle_y'], -90, 90)` and
`pascal_el = 90 - angle_y`. -/
def frameEl (s : State) : ℚ := 90 - npclip s.angle_y (-90) 90

/-- Line 142: `radius = np.clip(state['radius'], 0, state['radius'])`. -/
def frameRad (s : State) : ℚ := npclip s.radius 0 s.radius

/-- Lines 74–76 of the dump branch: Python `int()` casts of the raw
(unclipped) controls. -/
def dumpAzInt (s : State) : ℤ := (pyint s.angle_z + 90) % 360

def dumpElInt (s : State) : ℤ := 90 - pyint s.angle_y

/-- Lines 78–79: `f'{d_id:03d}_el_{pascal_el:03d}_az_{pascal_az:03d}_rad_{rad:03d}'`
plus the `.png` extension. -/
def fileName (s : State) : String :=
  format3 (s.dump_id : ℤ) ++ "_el_" ++ format3 (dumpElInt s) ++ "_az_" ++
    format3 (dumpAzInt s) ++ "_rad_" ++ format3 (pyint s.radius) ++ ".png"

/-- Lines 108–110: `cad_idx += 1; if cad_idx == 10: cad_idx = 0`. -/
def cadStep (c : ℕ) : ℕ := if c + 1 = 10 then 0 else c + 1

/-- The render pass of lines 141–226: camera from the clipped controls,
normal-sketch capture, keypoint projection, plane resolution and warping,
synthesis, silhouette masking, and the 4-tile horizontal composite. -/
def computeFrame (e : Externals) (s : State) (tex : TextureExample) : Img :=
  let az := frameAz s
  let el := frameEl s
  let rad := frameRad s
  let intrinsic := intrinsic_matrix s.focal (imgW / 2) (imgH / 2)
  let extrinsic := e.vpointToExtrinsics az el rad
  let srcNormal := e.captureNormal s.cad_idx s.geometriesMeshColors s.focal extrinsic
  let kpoints2d := kpProject s.kpoints_3d intrinsic extrinsic
  let dst := e.getPlanes kpoints2d (az, el) s.cad_idx s.pascal_class
  let warped := e.warpUnwarp tex.planes tex.src_kpoints_planes dst.1 tex.src_vs dst.2
    s.pascal_class
  let sketchT := e.toSketchTensor srcNormal
  let netImage := e.net sketchT tex.src_central warped
  let masked := maskNet netImage srcNormal
  compositeFrame (e.tensorToImage sketchT) (e.tensorToImage tex.src_central) masked
    (e.tensorToImage tex.src_image)

/-- Lines 164–230 run only when the visualizer is live; they read
`state['texture_src']` (`KeyError` when unset) and store the composite into
`state['dump_image']` (line 227). -/
def renderPhase (e : Externals) (s : State) : Except Err State :=
  match s.texture_src with
  | none => .error .keyError
  | some tex => .ok { s with dump_image := computeFrame e s tex }

/-- The event dispatch chain of `Callbacks.__call__` (lines 68–135), one
branch per key code: `0` no-op init key, `88='X'` dump, `82='R'` swallowed
reset, `70='F'`/`68='D'` pitch, `83='S'`/`65='A'` yaw, `72='H'`/`71='G'`
radius, `32=' '` next dataset example, `78='N'` next CAD model; any other
key raises `NotImplementedError`. -/
def mutate (e : Externals) (key : ℕ) (s : State) : Except Err State :=
  if key = 0 then .ok s
  else if key = 88 then
    .ok { s with dumped := s.dumped ++ [(fileName s, s.dump_image)],
                 dump_id := s.dump_id + 1 }
  else if key = 82 then .ok s
  else if key = 70 then .ok { s with angle_y := s.angle_y + 5 }
  else if key = 68 then .ok { s with angle_y := s.angle_y - 5 }
  else if key = 83 then .ok { s with angle_z := s.angle_z + 5 }
  else if key = 65 then .ok { s with angle_z := s.angle_z - 5 }
  else if key = 72 then .ok { s with radius := s.radius + 5/100 }
  else if key = 71 then .ok { s with radius := s.radius - 5/100 }
  else if key = 32 then
    match e.dataset[s.dataset_index]? with
    | some tex => .ok { s with texture_src := some tex,
                               dataset_index := s.dataset_index + 1 }
    | none => .error .indexError
  else if key = 78 then
    .ok { s with cad_idx := cadStep s.cad_idx,
                 kpoints_3d := e.kpStore (cadStep s.cad_idx),
                 normal_vertex_colors := e.meshColors (cadStep s.cad_idx) }
  else .error .notImplemented

/-- One full tick of `Callbacks.__call__`: the dispatch chain, then line
138 (mesh display colors refreshed from `normal_vertex_colors`), then —
only when the visualizer is live (`ready`; lines 156–158 return early on
the bare `o3d.Visualizer()` used during init) — the render phase. -/
def step (e : Externals) (ready : Bool) (key : ℕ) (s : State) : Except Err State :=
  (mutate e key s).bind fun m =>
    let m2 := { m with geometriesMeshColors := m.normal_vertex_colors }
    if ready then renderPhase e m2 else .ok m2

/-- A sequence of live ticks, stopping at the first raised error. -/
def runKeys (e : Externals) (keys : List ℕ) (s : State) : Except Err State :=
  keys.foldlM (fun t k => step e true k t) s

/-- Modelled from the spec: the external GUI loop
(`o3d.draw_geometries_with_key_callbacks`) is not part of the core; per
§4.6/§7 a tick that raises aborts only that tick and the session continues
with the state it had. -/
def session (e : Externals) (keys : List ℕ) (s : State) : State :=
  keys.foldl (fun t k => ((step e true k t).toOption).getD t) s

/-- The keys registered with the GUI in `run` (lines 272–284): these are
the only events the window can deliver to `Callbacks.__call__`. -/
def registeredKeys : List ℕ := [70, 68, 65, 83, 72, 71, 32, 78, 79, 80, 88]

/-- The key codes of the ten events of §4.6: no_op, dump_frame, rotate_up,
rotate_down, rotate_right, rotate_left, zoom_in, zoom_out, next_example,
next_model. -/
def eventKeys : List ℕ := [0, 88, 70, 68, 83, 65, 72, 71, 32, 78]

/-- The state dictionary as initialized in `run` (lines 239–249) for
`pascal_class='chair'`. -/
def initState : State :=
  { pascal_class := "chair", angle_y := 90, angle_z := 0, cad_idx := 0,
    dataset_index := 0, dump_id := 0, focal := 1000, radius := 7,
    geometriesMeshColors := 0, normal_vertex_colors := 0, kpoints_3d := [],
    texture_src := none, dump_image := [], dumped := [] }

/-- The init sequence of lines 287–289: `Callbacks(ord('N'))`,
`Callbacks(ord(' '))`, `Callbacks(0)`, each on a bare `o3d.Visualizer()`
whose render option is unset, so the render phase is skipped. -/
def runInit (e : Externals) (s : State) : Except Err State :=
  (step e false 78 s).bind fun t => (step e false 32 t).bind fun u => step e false 0 u

/-- How many of the six scalar fields of the session state (the two
angles, the radius, the CAD index, the dataset index, the dump counter)
differ between two states. -/
def scalarChanges (s t : State) : ℕ :=
  (if s.angle_y = t.angle_y then 0 else 1) + (if s.angle_z = t.angle_z then 0 else 1) +
    (if s.radius = t.radius then 0 else 1) + (if s.cad_idx = t.cad_idx then 0 else 1) +
    (if s.dataset_index = t.dataset_index then 0 else 1) +
    (if s.dump_id = t.dump_id then 0 else 1)

/-! ### Concrete fixtures used by scenario conjuncts and witnesses -/

def texA : TextureExample :=
  { planes := 10, src_kpoints_planes := 11, src_vs := 12, src_central := 13,
    src_image := 14 }

def texB : TextureExample :=
  { planes := 20, src_kpoints_planes := 21, src_vs := 22, src_central := 23,
    src_image := 24 }

/-- A small concrete instantiation of the external collaborators. -/
def testE : Externals :=
  { dataset := [texA, texB],
    kpStore := fun c => [("left_back_wheel", ((c : ℚ), 1, 2))],
    meshColors := fun c => c + 100,
    vpointToExtrinsics := fun az el r => ((1, 0, 0, az), (0, 1, 0, el), (0, 0, 1, r)),
    captureNormal := fun _ _ _ _ => [[(0, 0, 0), (3, 4, 5)]],
    getPlanes := fun _ _ _ _ => (7, 8),
    warpUnwarp := fun _ _ _ _ _ _ => 9,
    toSketchTensor := fun _ => 6,
    net := fun _ _ _ => [[(40, 41, 42), (43, 44, 45)]],
    tensorToImage := fun n => [[(n, n, n), (n, n, n)]] }

/-- The session state right after the init sequence. -/
def postInit : State := ((runInit testE initState).toOption).getD initState

/-- The post-init state after the line-138 mesh color refresh. -/
def postInitM : State :=
  { postInit with geometriesMeshColors := postInit.normal_vertex_colors }

/-- Result of a live no-op tick on the post-init state. -/
def noop1 : State := { postInitM with dump_image := computeFrame testE postInitM texA }

/-- The mutated state of a live rotate-up tick on the post-init state. -/
def rotUpM : State :=
  { postInit with angle_y := postInit.angle_y + 5,
                  geometriesMeshColors := postInit.normal_vertex_colors }

/-- Result of a live rotate-up tick on the post-init state. -/
def rotUpRes : State := { rotUpM with dump_image := computeFrame testE rotUpM texA }

/-- The mutated state of a live next-model tick on the post-init state. -/
def nmM : State :=
  { postInit with cad_idx := cadStep postInit.cad_idx,
                  kpoints_3d := testE.kpStore (cadStep postInit.cad_idx),
                  normal_vertex_colors := testE.meshColors (cadStep postInit.cad_idx),
                  geometriesMeshColors := testE.meshColors (cadStep postInit.cad_idx) }

/-- Result of a live next-model tick on the post-init state. -/
def nmRes : State := { nmM with dump_image := computeFrame testE nmM texA }

/-- The mutated state of a live dump tick on the post-init state. -/
def dumpM : State :=
  { postInit with dumped := postInit.dumped ++ [(fileName postInit, postInit.dump_image)],
                  dump_id := postInit.dump_id + 1,
                  geometriesMeshColors := postInit.normal_vertex_colors }

/-- Result of a live dump tick on the post-init state. -/
def dump1 : State := { dumpM with dump_image := computeFrame testE dumpM texA }

/-- The mutated state of a second live dump tick. -/
def dumpM2 : State :=
  { dump1 with dumped := dump1.dumped ++ [(fileName dump1, dump1.dump_image)],
               dump_id := dump1.dump_id + 1,
               geometriesMeshColors := dump1.normal_vertex_colors }

/-- Result of a second live dump tick. -/
def dump2 : State := { dumpM2 with dump_image := computeFrame testE dumpM2 texA }

/-- The mutated state of a live next-example tick on the post-init state. -/
def neM : State :=
  { postInit with texture_src := some texB,
                  dataset_index := postInit.dataset_index + 1,
                  geometriesMeshColors := postInit.normal_vertex_colors }

/-- Result of a live next-example tick on the post-init state. -/
def neRes : State := { neM with dump_image := computeFrame testE neM texB }

/-- A one-keypoint map used to probe the projector. -/
def c3kps : List (String × Point3) := [("left_back_wheel", (0, 0, 0))]

/-- The intrinsics the render loop builds: focal 1000, principal point
`(img_w/2, img_h/2) = (64, 64)` (line 147). -/
def c3K : Mat3 := intrinsic_matrix 1000 64 64

/-- A concrete extrinsic placing the camera 5 units in front of the origin. -/
def c3Ext : Mat34 := ((1, 0, 0, 0), (0, 1, 0, 0), (0, 0, 1, 5))

/-- Tiny concrete images used to exercise the compositor. -/
def imgSk : Img := [[(1, 1, 1)]]

def imgCe : Img := [[(2, 2, 2)]]

def imgNet : Img := [[(9, 9, 9), (8, 8, 8)]]

def imgNorm : Img := [[(0, 0, 0), (1, 0, 0)]]

def imgOrig : Img := [[(4, 4, 4)]]

/-! ### Helper lemmas -/

theorem npclip_le_right (x lo hi : ℚ) : npclip x lo hi ≤ hi := by
  unfold npclip npmin
  split
  · exact le_rfl
  · exact le_of_not_le (by assumption)

theorem le_npclip (x lo hi : ℚ) (h : lo ≤ hi) : lo ≤ npclip x lo hi := by
  have hw : lo ≤ npmax lo x := by
    unfold npmax
    split
    · assumption
    · exact le_rfl
  unfold npclip npmin
  split
  · exact h
  · exact hw

/-- `np.clip(r, 0, r)` is the identity: for `r ≥ 0` because `r ≤ r`, and
for `r < 0` because numpy's clip returns the upper bound when it is below
the lower bound. -/
theorem npclip_self (r : ℚ) : npclip r 0 r = r := by
  unfold npclip npmax npmin
  by_cases h : 0 ≤ r
  · rw [if_pos h, if_pos le_rfl]
  · rw [if_neg h, if_pos (le_of_lt (not_le.mp h))]

theorem renderPhase_eq_ok (e : Externals) (s : State) (tex : TextureExample)
    (h : s.texture_src = some tex) :
    renderPhase e s = .ok { s with dump_image := computeFrame e s tex } := by
  unfold renderPhase
  rw [h]

theorem renderPhase_ok_inv (e : Externals) (s s2 : State)
    (h : renderPhase e s = .ok s2) :
    ∃ tex, s.texture_src = some tex ∧
      s2 = { s with dump_image := computeFrame e s tex } := by
  unfold renderPhase at h
  cases hts : s.texture_src with
  | none => rw [hts] at h; simp at h
  | some tex =>
    rw [hts] at h
    injection h with h
    exact ⟨tex, rfl, h.symm⟩

theorem computeFrame_dump_image (e : Externals) (s : State) (tex : TextureExample)
    (img : Img) :
    computeFrame e { s with dump_image := img } tex = computeFrame e s tex := rfl

theorem step_live_noop (e : Externals) (s : State) :
    step e true 0 s =
      renderPhase e { s with geometriesMeshColors := s.normal_vertex_colors } := rfl

theorem step_live_F (e : Externals) (s : State) :
    step e true 70 s =
      renderPhase e { s with angle_y := s.angle_y + 5,
                             geometriesMeshColors := s.normal_vertex_colors } := rfl

theorem step_live_D (e : Externals) (s : State) :
    step e true 68 s =
      renderPhase e { s with angle_y := s.angle_y - 5,
                             geometriesMeshColors := s.normal_vertex_colors } := rfl

theorem step_live_S (e : Externals) (s : State) :
    step e true 83 s =
      renderPhase e { s with angle_z := s.angle_z + 5,
                             geometriesMeshColors := s.normal_vertex_colors } := rfl

theorem step_live_A (e : Externals) (s : State) :
    step e true 65 s =
      renderPhase e { s with angle_z := s.angle_z - 5,
                             geometriesMeshColors := s.normal_vertex_colors } := rfl

theorem step_live_H (e : Externals) (s : State) :
    step e true 72 s =
      renderPhase e { s with radius := s.radius + 5/100,
                             geometriesMeshColors := s.normal_vertex_colors } := rfl

theorem step_live_G (e : Externals) (s : State) :
    step e true 71 s =
      renderPhase e { s with radius := s.radius - 5/100,
                             geometriesMeshColors := s.normal_vertex_colors } := rfl

theorem step_live_X (e : Externals) (s : State) :
    step e true 88 s =
      renderPhase e { s with dumped := s.dumped ++ [(fileName s, s.dump_image)],
                             dump_id := s.dump_id + 1,
                             geometriesMeshColors := s.normal_vertex_colors } := rfl

theorem step_live_N (e : Externals) (s : State) :
    step e true 78 s =
      renderPhase e
        { s with cad_idx := cadStep s.cad_idx,
                 kpoints_3d := e.kpStore (cadStep s.cad_idx),
                 normal_vertex_colors := e.meshColors (cadStep s.cad_idx),
                 geometriesMeshColors := e.meshColors (cadStep s.cad_idx) } := rfl

theorem step_live_space_some (e : Externals) (s : State) (tex : TextureExample)
    (h : e.dataset[s.dataset_index]? = some tex) :
    step e true 32 s =
      renderPhase e { s with texture_src := some tex,
                             dataset_index := s.dataset_index + 1,
                             geometriesMeshColors := s.normal_vertex_colors } := by
  unfold step mutate
  rw [h]
  rfl

theorem step_init_space_some (e : Externals) (s : State) (tex : TextureExample)
    (h : e.dataset[s.dataset_index]? = some tex) :
    step e false 32 s =
      .ok { s with texture_src := some tex,
                   dataset_index := s.dataset_index + 1,
                   geometriesMeshColors := s.normal_vertex_colors } := by
  unfold step mutate
  rw [h]
  rfl

theorem step_space_none (e : Externals) (r : Bool) (s : State)
    (h : e.dataset[s.dataset_index]? = none) :
    step e r 32 s = .error .indexError := by
  unfold step mutate
  rw [h]
  cases r <;> rfl

theorem mutate_unknown (e : Externals) (k : ℕ) (s : State)
    (h : k ∉ ([0, 88, 82, 70, 68, 83, 65, 72, 71, 32, 78] : List ℕ)) :
    mutate e k s = .error .notImplemented := by
  simp only [List.mem_cons, List.not_mem_nil, or_false, not_or] at h
  obtain ⟨h0, h88, h82, h70, h68, h83, h65, h72, h71, h32, h78⟩ := h
  unfold mutate
  rw [if_neg h0, if_neg h88, if_neg h82, if_neg h70, if_neg h68, if_neg h83, if_neg h65,
    if_neg h72, if_neg h71, if_neg h32, if_neg h78]

theorem step_unknown (e : Externals) (r : Bool) (k : ℕ) (s : State)
    (h : k ∉ ([0, 88, 82, 70, 68, 83, 65, 72, 71, 32, 78] : List ℕ)) :
    step e r k s = .error .notImplemented := by
  unfold step
  rw [mutate_unknown e k s h]
  rfl

theorem runKeys_nil (e : Externals) (s : State) : runKeys e [] s = .ok s := rfl

theorem runKeys_cons (e : Externals) (k : ℕ) (ks : List ℕ) (s : State) :
    runKeys e (k :: ks) s = (step e true k s).bind fun t => runKeys e ks t := rfl

/-- Rotate-right ticks on a state with a selected texture always succeed,
advance only the yaw (by +5 per tick), and preserve the other controls. -/
theorem runKeys_S (e : Externals) (n : ℕ) (s : State) (tex : TextureExample)
    (h : s.texture_src = some tex) :
    ∃ t, runKeys e (List.replicate n 83) s = .ok t ∧
      t.angle_z = s.angle_z + 5 * (n : ℚ) ∧ t.angle_y = s.angle_y ∧
      t.radius = s.radius ∧ t.texture_src = some tex := by
  induction n generalizing s with
  | zero => exact ⟨s, rfl, by push_cast; ring, rfl, rfl, h⟩
  | succ n ih =>
    have hM : ({ s with
        angle_z := s.angle_z + 5,
        geometriesMeshColors := s.normal_vertex_colors } : State).texture_src =
        some tex := h
    rw [List.replicate_succ, runKeys_cons, step_live_S, renderPhase_eq_ok e _ tex hM]
    obtain ⟨t, ht, h1, h2, h3, h4⟩ := ih
      { s with
        angle_z := s.angle_z + 5,
        geometriesMeshColors := s.normal_vertex_colors,
        dump_image := computeFrame e { s with
          angle_z := s.angle_z + 5,
          geometriesMeshColors := s.normal_vertex_colors } tex } hM
    refine ⟨t, ht, ?_, h2, h3, h4⟩
    rw [h1]
    show s.angle_z + 5 + 5 * (n : ℚ) = s.angle_z + 5 * ((n + 1 : ℕ) : ℚ)
    push_cast
    ring

/-- Zoom-out ticks on a state with a selected texture always succeed and
decrease the radius by 0.05 per tick, preserving the other controls. -/
theorem runKeys_G (e : Externals) (n : ℕ) (s : State) (tex : TextureExample)
    (h : s.texture_src = some tex) :
    ∃ t, runKeys e (List.replicate n 71) s = .ok t ∧
      t.radius = s.radius - (5/100) * (n : ℚ) ∧ t.angle_y = s.angle_y ∧
      t.angle_z = s.angle_z ∧ t.texture_src = some tex := by
  induction n generalizing s with
  | zero => exact ⟨s, rfl, by push_cast; ring, rfl, rfl, h⟩
  | succ n ih =>
    have hM : ({ s with
        radius := s.radius - 5/100,
        geometriesMeshColors := s.normal_vertex_colors } : State).texture_src =
        some tex := h
    rw [List.replicate_succ, runKeys_cons, step_live_G, renderPhase_eq_ok e _ tex hM]
    obtain ⟨t, ht, h1, h2, h3, h4⟩ := ih
      { s with
        radius := s.radius - 5/100,
        geometriesMeshColors := s.normal_vertex_colors,
        dump_image := computeFrame e { s with
          radius := s.radius - 5/100,
          geometriesMeshColors := s.normal_vertex_colors } tex } hM
    refine ⟨t, ht, ?_, h2, h3, h4⟩
    rw [h1]
    show s.radius - 5/100 - 5/100 * (n : ℚ) = s.radius - 5/100 * ((n + 1 : ℕ) : ℚ)
    push_cast
    ring

/-- Next-model ticks on a state with a selected texture always succeed and
iterate the wrap-at-10 increment on the CAD index. -/
theorem runKeys_N (e : Externals) (n : ℕ) (s : State) (tex : TextureExample)
    (h : s.texture_src = some tex) :
    ∃ t, runKeys e (List.replicate n 78) s = .ok t ∧
      t.cad_idx = cadStep^[n] s.cad_idx ∧ t.texture_src = some tex := by
  induction n generalizing s with
  | zero => exact ⟨s, rfl, rfl, h⟩
  | succ n ih =>
    have hM : ({ s with
        cad_idx := cadStep s.cad_idx,
        kpoints_3d := e.kpStore (cadStep s.cad_idx),
        normal_vertex_colors := e.meshColors (cadStep s.cad_idx),
        geometriesMeshColors := e.meshColors (cadStep s.cad_idx) } :
        State).texture_src = some tex := h
    rw [List.replicate_succ, runKeys_cons, step_live_N, renderPhase_eq_ok e _ tex hM]
    obtain ⟨t, ht, h1, h2⟩ := ih
      { s with
        cad_idx := cadStep s.cad_idx,
        kpoints_3d := e.kpStore (cadStep s.cad_idx),
        normal_vertex_colors := e.meshColors (cadStep s.cad_idx),
        geometriesMeshColors := e.meshColors (cadStep s.cad_idx),
        dump_image := computeFrame e { s with
          cad_idx := cadStep s.cad_idx,
          kpoints_3d := e.kpStore (cadStep s.cad_idx),
          normal_vertex_colors := e.meshColors (cadStep s.cad_idx),
          geometriesMeshColors := e.meshColors (cadStep s.cad_idx) } tex } hM
    refine ⟨t, ht, ?_, h2⟩
    rw [h1]
    show cadStep^[n] (cadStep s.cad_idx) = cadStep^[n + 1] s.cad_idx
    rw [Function.iterate_succ_apply]

/-- Any successful run of rotate-right ticks advanced the yaw by 5 per tick
and left the pitch alone. -/
theorem runKeys_S_inv (e : Externals) (n : ℕ) (s t : State)
    (h : runKeys e (List.replicate n 83) s = .ok t) :
    t.angle_z = s.angle_z + 5 * (n : ℚ) ∧ t.angle_y = s.angle_y := by
  induction n generalizing s with
  | zero =>
    injection h with h
    subst h
    exact ⟨by push_cast; ring, rfl⟩
  | succ n ih =>
    rw [List.replicate_succ, runKeys_cons] at h
    cases hstep : step e true 83 s with
    | error err => rw [hstep] at h; simp [Except.bind] at h
    | ok s1 =>
      rw [hstep] at h
      rw [step_live_S] at hstep
      obtain ⟨tex, htex, hs1⟩ := renderPhase_ok_inv _ _ _ hstep
      subst hs1
      obtain ⟨h1, h2⟩ := ih _ h
      refine ⟨?_, h2⟩
      rw [h1]
      show s.angle_z + 5 + 5 * (n : ℚ) = s.angle_z + 5 * ((n + 1 : ℕ) : ℚ)
      push_cast
      ring

/-! ### Claims -/

/-- Claim C2, evidence of the code bug: the radius clamp of line 142,
`np.clip(radius, 0, radius)`, is the identity for every radius — numpy
returns the upper bound when it lies below the lower bound — so the radius
used for the frame is NOT kept ≥ 0: after 141 zoom-out events of −0.05
each from the default radius 7, the radius fed to the camera is −1/20.
The elevation half of the claim does hold: the clamped pitch always lies
in [−90, 90]. -/
theorem radius_clamp_identity_goes_negative :
    (∀ s : State, frameRad s = s.radius) ∧
    (∃ t, runKeys testE (List.replicate 141 71) postInit = .ok t ∧
      t.radius = -(1/20) ∧ frameRad t = -(1/20)) ∧
    ¬ ((0 : ℚ) ≤ -(1/20)) ∧
    (∀ s : State, -90 ≤ npclip s.angle_y (-90) 90 ∧ npclip s.angle_y (-90) 90 ≤ 90) := by
  refine ⟨fun s => npclip_self s.radius, ?_, by norm_num,
    fun s => ⟨le_npclip _ _ _ (by norm_num), npclip_le_right _ _ _⟩⟩
  obtain ⟨t, ht, hr, _, _, _⟩ := runKeys_G testE 141 postInit texA rfl
  have hval : t.radius = -(1/20) := by
    rw [hr, show postInit.radius = 7 from rfl]
    push_cast
    norm_num
  exact ⟨t, ht, hval, (npclip_self t.radius).trans hval⟩

/-- Claim C3, counterexample: the source divides the projected pixel
coordinates by the full frame size `(img_w, img_h) = (128, 128)` (line
179), not by the half frame size the claim states; on the origin keypoint
seen from 5 units away the two disagree (1/2 versus 1). -/
theorem keypoint_projector_half_frame_counterexample :
    kpProject c3kps c3K c3Ext ≠ kpProjectSpecHalf c3kps c3K c3Ext := by
  simp only [kpProject, kpProjectSpecHalf, projectNormClip, project_points, applyExt,
    applyMat3, applyRow3, applyRow4, intrinsic_matrix, c3kps, c3K, c3Ext, imgW, imgH,
    List.map_cons, List.map_nil, npclip, npmax, npmin]
  norm_num

/-- Claim C3 (amended): the projector applies the pinhole projection to
each keypoint independently, divides by the full frame size `(img_w,
img_h)` and clips each coordinate to [−1, 1]; the output keeps exactly one
2D point per input keypoint name. -/
theorem keypoint_projector_clips_per_point (kps : List (String × Point3))
    (intrinsic : Mat3) (extrinsic : Mat34) (n : String) (p : Point3)
    (h : (n, p) ∈ kps) :
    (kpProject kps intrinsic extrinsic).map Prod.fst = kps.map Prod.fst ∧
    (kpProject kps intrinsic extrinsic).length = kps.length ∧
    (n, projectNormClip p intrinsic extrinsic) ∈ kpProject kps intrinsic extrinsic ∧
    -1 ≤ (projectNormClip p intrinsic extrinsic).1 ∧
    (projectNormClip p intrinsic extrinsic).1 ≤ 1 ∧
    -1 ≤ (projectNormClip p intrinsic extrinsic).2 ∧
    (projectNormClip p intrinsic extrinsic).2 ≤ 1 := by
  refine ⟨?_, ?_, ?_, ?_, ?_, ?_, ?_⟩
  · rw [kpProject, List.map_map]
    rfl
  · rw [kpProject, List.length_map]
  · exact List.mem_map_of_mem _ h
  · exact le_npclip _ _ _ (by norm_num)
  · exact npclip_le_right _ _ _
  · exact le_npclip _ _ _ (by norm_num)
  · exact npclip_le_right _ _ _

/-- Witness for the amended C3 theorem at a concrete one-point map. -/
theorem keypoint_projector_clips_per_point_witness :
    (kpProject c3kps c3K c3Ext).map Prod.fst = c3kps.map Prod.fst ∧
    (kpProject c3kps c3K c3Ext).length = c3kps.length ∧
    ("left_back_wheel", projectNormClip (0, 0, 0) c3K c3Ext) ∈ kpProject c3kps c3K c3Ext ∧
    -1 ≤ (projectNormClip (0, 0, 0) c3K c3Ext).1 ∧
    (projectNormClip (0, 0, 0) c3K c3Ext).1 ≤ 1 ∧
    -1 ≤ (projectNormClip (0, 0, 0) c3K c3Ext).2 ∧
    (projectNormClip (0, 0, 0) c3K c3Ext).2 ≤ 1 :=
  keypoint_projector_clips_per_point c3kps c3K c3Ext "left_back_wheel" (0, 0, 0)
    (by simp [c3kps])

/-- Claim C7: a live next_model tick advances the CAD index modulo the
fixed catalog size 10 and reloads that model's 3D keypoints from the
store; ten next_model events issued from CAD index 0 return the index
to 0. -/
theorem next_model_wraps (e : Externals) (s s2 : State) (hlt : s.cad_idx < 10)
    (h : step e true 78 s = .ok s2) :
    s2.cad_idx = (s.cad_idx + 1) % 10 ∧
    s2.kpoints_3d = e.kpStore ((s.cad_idx + 1) % 10) ∧
    ∃ u, runKeys testE (List.replicate 10 78) { postInit with cad_idx := 0 } = .ok u ∧
      u.cad_idx = 0 := by
  rw [step_live_N] at h
  obtain ⟨tex, htex, hs2⟩ := renderPhase_ok_inv _ _ _ h
  have hc : cadStep s.cad_idx = (s.cad_idx + 1) % 10 := by
    unfold cadStep
    split <;> omega
  subst hs2
  refine ⟨hc, congrArg e.kpStore hc, ?_⟩
  obtain ⟨u, hu, hcad, _⟩ := runKeys_N testE 10 { postInit with cad_idx := 0 } texA rfl
  refine ⟨u, hu, ?_⟩
  rw [hcad]
  decide

/-- Witness for C7 on the post-init state (CAD index 1). -/
theorem next_model_wraps_witness :
    nmRes.cad_idx = (postInit.cad_idx + 1) % 10 ∧
    nmRes.kpoints_3d = testE.kpStore ((postInit.cad_idx + 1) % 10) ∧
    ∃ u, runKeys testE (List.replicate 10 78) { postInit with cad_idx := 0 } = .ok u ∧
      u.cad_idx = 0 :=
  next_model_wraps testE postInit nmRes (by decide)
    (by rw [step_live_N]
        exact renderPhase_eq_ok testE nmM texA rfl)

/-- Claim C1: every frame's camera azimuth is `(yaw + 90) mod 360` and its
elevation `90 − clamped pitch`; a fresh session (defaults yaw 0, pitch 90,
radius 7) uses azimuth 90, elevation 0 and radius 7, and 18 rotate-right
events of +5° each from yaw 0 leave yaw 90 and azimuth 180. -/
theorem azimuth_elevation_each_frame (e : Externals) (n : ℕ) (s t : State)
    (h : runKeys e (List.replicate n 83) s = .ok t) :
    frameAz t = pymod (t.angle_z + 90) 360 ∧
    frameEl t = 90 - npclip t.angle_y (-90) 90 ∧
    t.angle_z = s.angle_z + 5 * (n : ℚ) ∧ t.angle_y = s.angle_y ∧
    (frameAz postInit = 90 ∧ frameEl postInit = 0 ∧ frameRad postInit = 7) ∧
    ∃ u : State, runKeys testE (List.replicate 18 83) postInit = .ok u ∧
      u.angle_z = 90 ∧ frameAz u = 180 := by
  obtain ⟨hz, hy⟩ := runKeys_S_inv e n s t h
  refine ⟨rfl, rfl, hz, hy, ⟨?_, ?_, ?_⟩, ?_⟩
  · show pymod (postInit.angle_z + 90) 360 = 90
    rw [show postInit.angle_z = 0 from rfl]
    norm_num [pymod]
  · show 90 - npclip postInit.angle_y (-90) 90 = 0
    rw [show postInit.angle_y = 90 from rfl]
    norm_num [npclip, npmax, npmin]
  · rw [show frameRad postInit = postInit.radius from npclip_self _,
      show postInit.radius = 7 from rfl]
  · obtain ⟨u, hu, huz, _, _, _⟩ := runKeys_S testE 18 postInit texA rfl
    have hz90 : u.angle_z = 90 := by
      rw [huz, show postInit.angle_z = 0 from rfl]
      push_cast
      norm_num
    refine ⟨u, hu, hz90, ?_⟩
    show pymod (u.angle_z + 90) 360 = 180
    rw [hz90]
    norm_num [pymod]

/-- Witness for C1 with an empty rotate sequence on the post-init state. -/
theorem azimuth_elevation_each_frame_witness :
    frameAz postInit = pymod (postInit.angle_z + 90) 360 ∧
    frameEl postInit = 90 - npclip postInit.angle_y (-90) 90 ∧
    postInit.angle_z = postInit.angle_z + 5 * ((0 : ℕ) : ℚ) ∧
    postInit.angle_y = postInit.angle_y ∧
    (frameAz postInit = 90 ∧ frameEl postInit = 0 ∧ frameRad postInit = 7) ∧
    ∃ u : State, runKeys testE (List.replicate 18 83) postInit = .ok u ∧
      u.angle_z = 90 ∧ frameAz u = 180 :=
  azimuth_elevation_each_frame testE 0 postInit postInit rfl

/-- A no-op fixpoint of the live tick absorbs any number of further
no-op ticks. -/
theorem runKeys_noop_fix (e : Externals) (s : State)
    (hstep : step e true 0 s = .ok s) (n : ℕ) :
    runKeys e (List.replicate n 0) s = .ok s := by
  induction n with
  | zero => rfl
  | succ n ih =>
    rw [List.replicate_succ, runKeys_cons, hstep]
    exact ih

/-- Claim C9: a live no_op tick keeps every session field (the stored frame
is recomputed from unchanged controls), a second no_op tick returns exactly
the same state — in particular the same composited frame — and any number
of further no_op ticks leave the state fixed. -/
theorem noop_identical_frame (e : Externals) (s s1 s2 : State) (n : ℕ)
    (h1 : step e true 0 s = .ok s1) (h2 : step e true 0 s1 = .ok s2) :
    s1.angle_y = s.angle_y ∧ s1.angle_z = s.angle_z ∧ s1.radius = s.radius ∧
    s1.cad_idx = s.cad_idx ∧ s1.dataset_index = s.dataset_index ∧
    s1.dump_id = s.dump_id ∧ s1.texture_src = s.texture_src ∧
    s1.kpoints_3d = s.kpoints_3d ∧
    s2 = s1 ∧ s2.dump_image = s1.dump_image ∧
    runKeys e (List.replicate n 0) s1 = .ok s1 := by
  have h2' := h2
  rw [step_live_noop] at h1
  obtain ⟨tex, htex, hs1⟩ := renderPhase_ok_inv _ _ _ h1
  subst hs1
  rw [step_live_noop] at h2
  obtain ⟨tex2, htex2, hs2⟩ := renderPhase_ok_inv _ _ _ h2
  have htt : tex2 = tex := Option.some.inj (htex2.symm.trans htex)
  subst htt
  subst hs2
  exact ⟨rfl, rfl, rfl, rfl, rfl, rfl, rfl, rfl, rfl, rfl,
    runKeys_noop_fix e _ h2' n⟩

/-- Witness for C9: two live no-op ticks on the post-init state. -/
theorem noop_identical_frame_witness :
    noop1.angle_y = postInit.angle_y ∧ noop1.angle_z = postInit.angle_z ∧
    noop1.radius = postInit.radius ∧ noop1.cad_idx = postInit.cad_idx ∧
    noop1.dataset_index = postInit.dataset_index ∧ noop1.dump_id = postInit.dump_id ∧
    noop1.texture_src = postInit.texture_src ∧ noop1.kpoints_3d = postInit.kpoints_3d ∧
    noop1 = noop1 ∧ noop1.dump_image = noop1.dump_image ∧
    runKeys testE (List.replicate 3 0) noop1 = .ok noop1 :=
  noop_identical_frame testE postInit noop1 noop1 3
    (by rw [step_live_noop]
        exact renderPhase_eq_ok testE postInitM texA rfl)
    (by rw [step_live_noop]
        exact (renderPhase_eq_ok testE
          { noop1 with geometriesMeshColors := noop1.normal_vertex_colors } texA
          rfl).trans rfl)

/-- Claim C8: a deliverable key outside the recognized event set (only 'O'
and 'P' are registered with the GUI yet absent from the dispatch chain)
fails the tick with NotImplementedError before any state mutation, and the
session continues on the next event as if the tick had not happened. -/
theorem unsupported_event_aborts_tick_only (e : Externals) (r : Bool) (k : ℕ) (s : State)
    (rest : List ℕ) (hreg : k ∈ registeredKeys) (hrec : k ∉ eventKeys) :
    step e r k s = .error .notImplemented ∧
    session e (k :: rest) s = session e rest s := by
  have hk : k ∉ ([0, 88, 82, 70, 68, 83, 65, 72, 71, 32, 78] : List ℕ) := by
    simp only [registeredKeys] at hreg
    fin_cases hreg <;> first
      | exact absurd (by decide) hrec
      | decide
  refine ⟨step_unknown e r k s hk, ?_⟩
  show session e rest (((step e true k s).toOption).getD s) = session e rest s
  rw [step_unknown e true k s hk]
  rfl

/-- Witness for C8: key 'O' (79) on the post-init state. -/
theorem unsupported_event_aborts_tick_only_witness :
    step testE true 79 postInit = .error .notImplemented ∧
    session testE (79 :: [83]) postInit = session testE [83] postInit :=
  unsupported_event_aborts_tick_only testE true 79 postInit [83] (by decide) (by decide)

/-- Claim C10: next_example reads the record at the current dataset index
and only then increments the index, so the first next_example of a session
(dataset index 0) selects record 0; the index is never wrapped or bounds
checked, and once it reaches the number of loaded records the next tick
fails with IndexError instead of cycling. -/
theorem next_example_reads_then_increments (e : Externals) (r : Bool) (s s2 : State)
    (h : step e r 32 s = .ok s2) :
    s2.texture_src = e.dataset[s.dataset_index]? ∧
    s2.dataset_index = s.dataset_index + 1 ∧
    initState.dataset_index = 0 ∧
    ∀ u : State, e.dataset.length ≤ u.dataset_index →
      step e r 32 u = .error .indexError := by
  have herr : ∀ u : State, e.dataset.length ≤ u.dataset_index →
      step e r 32 u = .error .indexError := by
    intro u hu
    exact step_space_none e r u (List.getElem?_eq_none hu)
  cases hl : e.dataset[s.dataset_index]? with
  | none =>
    rw [step_space_none e r s hl] at h
    simp at h
  | some tex =>
    cases r with
    | false =>
      rw [step_init_space_some e s tex hl] at h
      injection h with h
      subst h
      exact ⟨rfl, rfl, rfl, herr⟩
    | true =>
      rw [step_live_space_some e s tex hl] at h
      obtain ⟨tex2, htex2, hs2⟩ := renderPhase_ok_inv _ _ _ h
      subst hs2
      exact ⟨rfl, rfl, rfl, herr⟩

/-- Witness for C10: a live next-example tick on the post-init state
(dataset index 1 of the two-record test dataset). -/
theorem next_example_reads_then_increments_witness :
    neRes.texture_src = testE.dataset[postInit.dataset_index]? ∧
    neRes.dataset_index = postInit.dataset_index + 1 ∧
    initState.dataset_index = 0 ∧
    (∀ u : State, testE.dataset.length ≤ u.dataset_index →
      step testE true 32 u = .error .indexError) :=
  next_example_reads_then_increments testE true postInit neRes
    (by rw [step_live_space_some testE postInit texB rfl]
        exact renderPhase_eq_ok testE neM texB rfl)

/-- Claim C4: every live event other than no_op and dump_frame mutates
exactly one scalar field of the session state (an angle, the radius, or a
selection index) and then triggers a full pipeline re-render, so the
stored display frame is the one computed from the new state. -/
theorem event_mutates_one_scalar_then_rerenders (e : Externals) (k : ℕ) (s s2 : State)
    (hk : k ∈ ([70, 68, 83, 65, 72, 71, 32, 78] : List ℕ))
    (h : step e true k s = .ok s2) :
    scalarChanges s s2 = 1 ∧
    ∃ tex, s2.texture_src = some tex ∧ s2.dump_image = computeFrame e s2 tex := by
  fin_cases hk
  · rw [step_live_F] at h
    obtain ⟨tex, htex, hs2⟩ := renderPhase_ok_inv _ _ _ h
    subst hs2
    refine ⟨by simp [scalarChanges], tex, htex, ?_⟩
    rw [computeFrame_dump_image]
  · rw [step_live_D] at h
    obtain ⟨tex, htex, hs2⟩ := renderPhase_ok_inv _ _ _ h
    subst hs2
    have hne : ¬ s.angle_y = s.angle_y - 5 := by
      intro hq
      have := sub_eq_self.mp hq.symm
      norm_num at this
    refine ⟨by simp [scalarChanges, hne], tex, htex, ?_⟩
    rw [computeFrame_dump_image]
  · rw [step_live_S] at h
    obtain ⟨tex, htex, hs2⟩ := renderPhase_ok_inv _ _ _ h
    subst hs2
    refine ⟨by simp [scalarChanges], tex, htex, ?_⟩
    rw [computeFrame_dump_image]
  · rw [step_live_A] at h
    obtain ⟨tex, htex, hs2⟩ := renderPhase_ok_inv _ _ _ h
    subst hs2
    have hne : ¬ s.angle_z = s.angle_z - 5 := by
      intro hq
      have := sub_eq_self.mp hq.symm
      norm_num at this
    refine ⟨by simp [scalarChanges, hne], tex, htex, ?_⟩
    rw [computeFrame_dump_image]
  · rw [step_live_H] at h
    obtain ⟨tex, htex, hs2⟩ := renderPhase_ok_inv _ _ _ h
    subst hs2
    refine ⟨by simp [scalarChanges], tex, htex, ?_⟩
    rw [computeFrame_dump_image]
  · rw [step_live_G] at h
    obtain ⟨tex, htex, hs2⟩ := renderPhase_ok_inv _ _ _ h
    subst hs2
    have hne : ¬ s.radius = s.radius - 5/100 := by
      intro hq
      have := sub_eq_self.mp hq.symm
      norm_num at this
    refine ⟨by simp [scalarChanges, hne], tex, htex, ?_⟩
    rw [computeFrame_dump_image]
  · cases hl : e.dataset[s.dataset_index]? with
    | none =>
      rw [step_space_none e true s hl] at h
      simp at h
    | some tex =>
      rw [step_live_space_some e s tex hl] at h
      obtain ⟨tex2, htex2, hs2⟩ := renderPhase_ok_inv _ _ _ h
      subst hs2
      refine ⟨by simp [scalarChanges], tex2, htex2, ?_⟩
      rw [computeFrame_dump_image]
  · rw [step_live_N] at h
    obtain ⟨tex, htex, hs2⟩ := renderPhase_ok_inv _ _ _ h
    subst hs2
    have hne : ¬ s.cad_idx = cadStep s.cad_idx := by
      unfold cadStep
      split <;> omega
    refine ⟨by simp [scalarChanges, hne], tex, htex, ?_⟩
    rw [computeFrame_dump_image]

/-- Witness for C4: a live rotate-up tick on the post-init state. -/
theorem event_mutates_one_scalar_then_rerenders_witness :
    scalarChanges postInit rotUpRes = 1 ∧
    ∃ tex, rotUpRes.texture_src = some tex ∧
      rotUpRes.dump_image = computeFrame testE rotUpRes tex :=
  event_mutates_one_scalar_then_rerenders testE 70 postInit rotUpRes (by decide)
    (by rw [step_live_F]
        exact renderPhase_eq_ok testE rotUpM texA rfl)

/-- Claim C5: in the masked synthesis every background pixel (rendered
normal exactly (0, 0, 0)) equals full white 255, every foreground pixel is
unchanged from the synthesized image, and the display frame is the
horizontal concatenation [sketch | central | masked synthesis | original]
in that left-to-right order. -/
theorem compositor_masks_background_and_tiles (sk ce net norm orig : Img) (i j : ℕ)
    (np mp : Pix) (hn : getPix net i j = some np) (hm : getPix norm i j = some mp)
    (r1 r2 r3 r4 : List Pix) (h1 : sk[i]? = some r1) (h2 : ce[i]? = some r2)
    (h3 : (maskNet net norm)[i]? = some r3) (h4 : orig[i]? = some r4) :
    getPix (maskNet net norm) i j =
      some (if mp = (0, 0, 0) then (255, 255, 255) else np) ∧
    (compositeFrame sk ce (maskNet net norm) orig)[i]? = some (r1 ++ r2 ++ r3 ++ r4) := by
  constructor
  · unfold getPix at hn hm ⊢
    cases hni : net[i]? with
    | none => rw [hni] at hn; simp at hn
    | some nrow =>
      cases hmi : norm[i]? with
      | none => rw [hmi] at hm; simp at hm
      | some mrow =>
        rw [hni] at hn
        rw [hmi] at hm
        simp only [Option.some_bind] at hn hm
        rw [maskNet, List.getElem?_zipWith', hni, hmi]
        simp only [Option.map_some', Option.some_bind]
        rw [List.getElem?_zipWith', hn, hm]
        rfl
  · rw [compositeFrame, hconcat, List.getElem?_zipWith', hconcat, List.getElem?_zipWith',
      hconcat, List.getElem?_zipWith', h1, h2, h3, h4]
    rfl

/-- Witness for C5 on tiny concrete images: pixel (0, 0) of the synthesis
is background in the normal sketch and comes out white; the composite row
is the four rows appended in order. -/
theorem compositor_masks_background_and_tiles_witness :
    getPix (maskNet imgNet imgNorm) 0 0 =
      some (if ((0, 0, 0) : Pix) = (0, 0, 0) then (255, 255, 255) else (9, 9, 9)) ∧
    (compositeFrame imgSk imgCe (maskNet imgNet imgNorm) imgOrig)[0]? =
      some ([(1, 1, 1)] ++ [(2, 2, 2)] ++ [(255, 255, 255), (8, 8, 8)] ++ [(4, 4, 4)]) :=
  compositor_masks_background_and_tiles imgSk imgCe imgNet imgNorm imgOrig 0 0
    (9, 9, 9) (0, 0, 0) (by decide) (by decide)
    [(1, 1, 1)] [(2, 2, 2)] [(255, 255, 255), (8, 8, 8)] [(4, 4, 4)]
    (by decide) (by decide) (by decide) (by decide)

/-- Claim C6: a dump_frame tick leaves yaw, pitch and radius unchanged,
persists the last composited frame under the
`{dump_id:03d}_el_{el:03d}_az_{az:03d}_rad_{rad:03d}` filename and
increments the dump counter, so two consecutive dumps from a fresh counter
write files with the sequential id fields 000 and 001. -/
theorem dump_frame_persists_and_increments (e : Externals) (s s2 s3 : State)
    (h1 : step e true 88 s = .ok s2) (h2 : step e true 88 s2 = .ok s3) :
    s2.angle_y = s.angle_y ∧ s2.angle_z = s.angle_z ∧ s2.radius = s.radius ∧
    s2.dump_id = s.dump_id + 1 ∧
    s2.dumped = s.dumped ++ [(fileName s, s.dump_image)] ∧
    s3.dumped = s.dumped ++ [(fileName s, s.dump_image), (fileName s2, s2.dump_image)] ∧
    (s.dump_id = 0 →
      fileName s = "000" ++ "_el_" ++ format3 (dumpElInt s) ++ "_az_" ++
        format3 (dumpAzInt s) ++ "_rad_" ++ format3 (pyint s.radius) ++ ".png" ∧
      fileName s2 = "001" ++ "_el_" ++ format3 (dumpElInt s) ++ "_az_" ++
        format3 (dumpAzInt s) ++ "_rad_" ++ format3 (pyint s.radius) ++ ".png") := by
  rw [step_live_X] at h1
  obtain ⟨tex, htex, hs2⟩ := renderPhase_ok_inv _ _ _ h1
  subst hs2
  rw [step_live_X] at h2
  obtain ⟨tex2, htex2, hs3⟩ := renderPhase_ok_inv _ _ _ h2
  subst hs3
  refine ⟨rfl, rfl, rfl, rfl, rfl, ?_, ?_⟩
  · simp [List.append_assoc]
  · intro h0
    constructor
    · simp only [fileName, h0]
      rfl
    · simp only [fileName, h0]
      rfl

/-- Witness for C6: two live dump ticks on the post-init state (dump
counter 0). -/
theorem dump_frame_persists_and_increments_witness :
    dump1.angle_y = postInit.angle_y ∧ dump1.angle_z = postInit.angle_z ∧
    dump1.radius = postInit.radius ∧ dump1.dump_id = postInit.dump_id + 1 ∧
    dump1.dumped = postInit.dumped ++ [(fileName postInit, postInit.dump_image)] ∧
    dump2.dumped = postInit.dumped ++
      [(fileName postInit, postInit.dump_image), (fileName dump1, dump1.dump_image)] ∧
    (postInit.dump_id = 0 →
      fileName postInit = "000" ++ "_el_" ++ format3 (dumpElInt postInit) ++ "_az_" ++
        format3 (dumpAzInt postInit) ++ "_rad_" ++
        format3 (pyint postInit.radius) ++ ".png" ∧
      fileName dump1 = "001" ++ "_el_" ++ format3 (dumpElInt postInit) ++ "_az_" ++
        format3 (dumpAzInt postInit) ++ "_rad_" ++
        format3 (pyint postInit.radius) ++ ".png") :=
  dump_frame_persists_and_increments testE postInit dump1 dump2
    (by rw [step_live_X]
        exact renderPhase_eq_ok testE dumpM texA rfl)
    (by rw [step_live_X]
        exact renderPhase_eq_ok testE dumpM2 texA rfl)

end RunRotate
